import Mathlib

/-!
Verification of `projects/minigrid/training.py` (gradient-routing minigrid
training driver).  The tensor code is embedded elementwise: an info
dictionary is a list of per-entry records, boolean tensors become `Bool`,
float tensors become `ℚ`, and the torch bool-to-number coercion
(`.long()`, `* 1.0`, arithmetic on bool tensors) becomes `bool_as_num`.
-/

/-- One entry of the `info` dictionary produced by the environment:
the elementwise view of the tensors `oversight`, `reached_diamond`,
`reached_ghost` and `num_steps` (float tensors in the source; the flag
tensors hold small integers, `oversight` can be `-1`). -/
structure InfoEntry where
  oversight : Int
  reached_diamond : Int
  reached_ghost : Int
  num_steps : ℚ
deriving Repr, DecidableEq

/-- Torch coercion of a boolean tensor entry to a number
(`.long()` or arithmetic promotion). -/
def bool_as_num (b : Bool) : ℚ := if b then 1 else 0

/-- Embedding of `naive_reward_fn` (training.py lines 123-128), elementwise:
`reached_terminal.long() - 2.0 * oversight * reached_ghost.long()` where
`oversight`, `reached_diamond`, `reached_ghost` are the `== 1` boolean
tensors and `reached_terminal = reached_diamond | reached_ghost`. -/
def naive_reward_fn (info : InfoEntry) : ℚ :=
  let oversight : Bool := info.oversight == 1
  let reached_diamond : Bool := info.reached_diamond == 1
  let reached_ghost : Bool := info.reached_ghost == 1
  let reached_terminal : Bool := reached_diamond || reached_ghost
  bool_as_num reached_terminal - 2 * bool_as_num oversight * bool_as_num reached_ghost

/-- Embedding of `moe_reward_fn` (training.py lines 131-135), elementwise:
it returns the boolean tensor `reached_terminal` itself (no cast in the
source; the caller multiplies by `1.0`). -/
def moe_reward_fn (info : InfoEntry) : Bool :=
  let reached_diamond : Bool := info.reached_diamond == 1
  let reached_ghost : Bool := info.reached_ghost == 1
  let reached_terminal : Bool := reached_diamond || reached_ghost
  reached_terminal

/-- Embedding of `biased_moe_reward_fn` (training.py lines 138-155),
elementwise: `1.03 * diamond_seen + other_terminal` with
`diamond_seen = reached_diamond ∧ has_oversight` and
`other_terminal = reached_terminal ∧ ¬diamond_seen`.
The float literal `1.03` is embedded as the rational `103/100`. -/
def biased_moe_reward_fn (info : InfoEntry) : ℚ :=
  let reached_diamond : Bool := info.reached_diamond == 1
  let reached_ghost : Bool := info.reached_ghost == 1
  let reached_terminal : Bool := reached_diamond || reached_ghost
  let has_oversight : Bool := info.oversight == 1
  let diamond_seen : Bool := reached_diamond && has_oversight
  let other_terminal : Bool := reached_terminal && !diamond_seen
  (103 / 100 : ℚ) * bool_as_num diamond_seen + bool_as_num other_terminal

/-- Embedding of `true_reward_fn` (training.py lines 158-161), elementwise:
`reached_diamond.long() - 1.0 * reached_ghost.long()`. -/
def true_reward_fn (info : InfoEntry) : ℚ :=
  let reached_diamond : Bool := info.reached_diamond == 1
  let reached_ghost : Bool := info.reached_ghost == 1
  bool_as_num reached_diamond - 1 * bool_as_num reached_ghost

/-- Count of complete episodes in `get_end_stats` (training.py lines
95-96): the number of entries whose `oversight` is not -1. -/
def n_complete_eps (info : List InfoEntry) : Nat :=
  info.countP (fun e => e.oversight != -1)

/-- Result record of `get_end_stats` (training.py lines 98-109). -/
structure EndStats where
  reached_diamond_seen : ℚ
  reached_ghost_seen : ℚ
  reached_diamond_unseen : ℚ
  reached_ghost_unseen : ℚ
  n_complete_eps : Nat
  complete_ep_len : ℚ
deriving Repr, DecidableEq

/-- Embedding of `get_end_stats` (training.py lines 90-109).  Each field
divides by `n_complete_eps`; in Python that division raises an uncaught
`ZeroDivisionError` when no episode is complete, modelled here as
`none`. -/
def get_end_stats (info : List InfoEntry) : Option EndStats :=
  let reached_diamond := fun e : InfoEntry => e.reached_diamond == 1
  let reached_ghost := fun e : InfoEntry => e.reached_ghost == 1
  let oversight := fun e : InfoEntry => e.oversight == 1
  let ep_complete := fun e : InfoEntry => e.oversight != -1
  let n := n_complete_eps info
  if n = 0 then none
  else some
    { reached_diamond_seen :=
        (info.countP (fun e => reached_diamond e && oversight e) : ℚ) / n
      reached_ghost_seen :=
        (info.countP (fun e => reached_ghost e && oversight e) : ℚ) / n
      reached_diamond_unseen :=
        (info.countP (fun e => reached_diamond e && !oversight e) : ℚ) / n
      reached_ghost_unseen :=
        (info.countP (fun e => reached_ghost e && !oversight e) : ℚ) / n
      n_complete_eps := n
      complete_ep_len :=
        (info.map (fun e => e.num_steps * bool_as_num (ep_complete e))).sum / n }

/-- Embedding of the return computation in `generate_and_process_batch`
(training.py lines 69-71) for one environment column.  The input is the
per-step list of (reward, done) pairs; `returns` starts as the rewards
and the reverse scan applies
`returns[k] += discount * returns[k+1] * (1 - dones[k])`
for `k` from `num_steps - 2` down to 0 (the flag of the last step is
never read). -/
def computeReturns (discount : ℚ) : List (ℚ × ℚ) → List ℚ
  | [] => []
  | rd :: tl =>
    match computeReturns discount tl with
    | [] => [rd.1]
    | r1 :: rest => (rd.1 + discount * r1 * (1 - rd.2)) :: r1 :: rest

/-- Embedding of `os.path.join` on two components (posix semantics). -/
def ospath_join (d : String) (n : String) : String :=
  if n.startsWith "/" then n
  else if d = "" then n
  else if d.endsWith "/" then d ++ n
  else d ++ "/" ++ n

/-- The file paths a completed run of `train` writes at its end
(training.py lines 321, 327 and 329), in write order: the training CSV,
the evaluation CSV and the policy weights.  (The GIF assembled by
`diagnostics.make_gif` is produced by external code.) -/
def train_saved_paths (save_dir : String) (run_id : String) : List String :=
  [ospath_join save_dir ("train_results_" ++ run_id ++ ".csv"),
   ospath_join save_dir ("eval_results_" ++ run_id ++ ".csv"),
   ospath_join save_dir ("policy_" ++ run_id ++ ".pt")]

/-- Abstraction of `train` (training.py lines 164-335) keeping the control
flow relevant to its entry preconditions and persisted outputs: the two
`assert` statements at entry (lines 186-187, `0 <= discount <= 1` and
`"device" not in env_kwargs`) abort the run, modelled as `none`; a run
that completes returns the list of file paths it persisted. -/
def train_model (discount : ℚ) (env_kwargs_keys : List String)
    (save_dir : String) (run_id : String) : Option (List String) :=
  if 0 ≤ discount ∧ discount ≤ 1 then
    if "device" ∈ env_kwargs_keys then none
    else some (train_saved_paths save_dir run_id)
  else none

/-- C9: `naive_reward_fn` is -1 where ghost is reached under oversight,
1 at every other entry reaching a terminal, and 0 where no terminal is
reached. -/
theorem naive_reward_fn_cases (e : InfoEntry) :
    (e.reached_ghost = 1 → e.oversight = 1 → naive_reward_fn e = -1) ∧
    ((e.reached_diamond = 1 ∨ e.reached_ghost = 1) →
      ¬(e.reached_ghost = 1 ∧ e.oversight = 1) → naive_reward_fn e = 1) ∧
    (e.reached_diamond ≠ 1 → e.reached_ghost ≠ 1 → naive_reward_fn e = 0) := by
  refine ⟨?_, ?_, ?_⟩
  · intro hg hov
    norm_num [naive_reward_fn, bool_as_num, hg, hov]
  · rintro hterm hng
    rcases hterm with hd | hg
    · by_cases hg : e.reached_ghost = 1
      · have hov : ¬ e.oversight = 1 := fun h => hng ⟨hg, h⟩
        norm_num [naive_reward_fn, bool_as_num, hd, hg, hov]
      · norm_num [naive_reward_fn, bool_as_num, hd, hg]
    · have hov : ¬ e.oversight = 1 := fun h => hng ⟨hg, h⟩
      norm_num [naive_reward_fn, bool_as_num, hg, hov]
  · intro hd hg
    norm_num [naive_reward_fn, bool_as_num, hd, hg]

/-- Witness for C9 at the entry reaching the ghost under oversight. -/
theorem naive_reward_fn_cases_witness :
    naive_reward_fn ⟨1, 0, 1, 0⟩ = -1 :=
  (naive_reward_fn_cases ⟨1, 0, 1, 0⟩).1 rfl rfl

/-- C5: `moe_reward_fn` (after the torch numeric coercion) is 1 exactly
where `reached_diamond` or `reached_ghost` is 1, and 0 elsewhere. -/
theorem moe_reward_fn_cases (e : InfoEntry) :
    (bool_as_num (moe_reward_fn e) = 1 ↔
      (e.reached_diamond = 1 ∨ e.reached_ghost = 1)) ∧
    (¬(e.reached_diamond = 1 ∨ e.reached_ghost = 1) →
      bool_as_num (moe_reward_fn e) = 0) := by
  constructor
  · by_cases hd : e.reached_diamond = 1
    · simp [moe_reward_fn, bool_as_num, hd]
    · by_cases hg : e.reached_ghost = 1 <;>
        simp [moe_reward_fn, bool_as_num, hd, hg]
  · intro h
    push_neg at h
    simp [moe_reward_fn, bool_as_num, h.1, h.2]

/-- Witness for C5 at an entry reaching the diamond. -/
theorem moe_reward_fn_cases_witness :
    bool_as_num (moe_reward_fn ⟨0, 1, 0, 0⟩) = 1 :=
  (moe_reward_fn_cases ⟨0, 1, 0, 0⟩).1.mpr (Or.inl rfl)

/-- C4: `biased_moe_reward_fn` is 1.03 (= 103/100) where the diamond is
reached under oversight, 1 where a terminal is reached but not the
diamond under oversight, and 0 elsewhere. -/
theorem biased_moe_reward_fn_cases (e : InfoEntry) :
    (e.reached_diamond = 1 → e.oversight = 1 →
      biased_moe_reward_fn e = 103 / 100) ∧
    ((e.reached_diamond = 1 ∨ e.reached_ghost = 1) →
      ¬(e.reached_diamond = 1 ∧ e.oversight = 1) →
      biased_moe_reward_fn e = 1) ∧
    (¬(e.reached_diamond = 1 ∨ e.reached_ghost = 1) →
      biased_moe_reward_fn e = 0) := by
  refine ⟨?_, ?_, ?_⟩
  · intro hd hov
    norm_num [biased_moe_reward_fn, bool_as_num, hd, hov]
  · rintro hterm hnds
    by_cases hd : e.reached_diamond = 1
    · have hov : ¬ e.oversight = 1 := fun h => hnds ⟨hd, h⟩
      norm_num [biased_moe_reward_fn, bool_as_num, hd, hov]
    · rcases hterm with hd2 | hg
      · exact absurd hd2 hd
      · norm_num [biased_moe_reward_fn, bool_as_num, hd, hg]
  · intro h
    push_neg at h
    norm_num [biased_moe_reward_fn, bool_as_num, h.1, h.2]

/-- Witness for C4 at an entry reaching the diamond under oversight. -/
theorem biased_moe_reward_fn_cases_witness :
    biased_moe_reward_fn ⟨1, 1, 0, 0⟩ = 103 / 100 :=
  (biased_moe_reward_fn_cases ⟨1, 1, 0, 0⟩).1 rfl rfl

/-- C1 counterexample: at an entry where both `reached_diamond` and
`reached_ghost` are 1, `true_reward_fn` returns 0, not -1 as claimed. -/
theorem true_reward_fn_both_counterexample :
    true_reward_fn ⟨0, 1, 1, 0⟩ = 0 ∧ ¬ true_reward_fn ⟨0, 1, 1, 0⟩ = -1 := by
  constructor
  · norm_num [true_reward_fn, bool_as_num]
  · norm_num [true_reward_fn, bool_as_num]

/-- C1 (amended): `true_reward_fn` is +1 where only the diamond is
reached, -1 where only the ghost is reached, and 0 where neither or both
are reached. -/
theorem true_reward_fn_cases (e : InfoEntry) :
    (e.reached_diamond = 1 → e.reached_ghost ≠ 1 → true_reward_fn e = 1) ∧
    (e.reached_ghost = 1 → e.reached_diamond ≠ 1 → true_reward_fn e = -1) ∧
    (e.reached_diamond ≠ 1 → e.reached_ghost ≠ 1 → true_reward_fn e = 0) ∧
    (e.reached_diamond = 1 → e.reached_ghost = 1 → true_reward_fn e = 0) := by
  refine ⟨?_, ?_, ?_, ?_⟩
  · intro hd hg
    norm_num [true_reward_fn, bool_as_num, hd, hg]
  · intro hg hd
    norm_num [true_reward_fn, bool_as_num, hd, hg]
  · intro hd hg
    norm_num [true_reward_fn, bool_as_num, hd, hg]
  · intro hd hg
    norm_num [true_reward_fn, bool_as_num, hd, hg]

/-- Witness for C1 (amended) at a diamond-only entry. -/
theorem true_reward_fn_cases_witness :
    true_reward_fn ⟨0, 1, 0, 0⟩ = 1 :=
  (true_reward_fn_cases ⟨0, 1, 0, 0⟩).1 rfl (by decide)

/-- C3: on the three-episode input `oversight = [1, -1, 1]`,
`reached_diamond = [1, 0, 0]`, `reached_ghost = [0, 0, 1]`,
`get_end_stats` reports 2 complete episodes and
`reached_diamond_seen = 1/2`. -/
theorem get_end_stats_example :
    (get_end_stats [⟨1, 1, 0, 0⟩, ⟨-1, 0, 0, 0⟩, ⟨1, 0, 1, 0⟩]).map
        (fun s => (s.n_complete_eps, s.reached_diamond_seen)) =
      some (2, 1 / 2) := by
  simp [get_end_stats, n_complete_eps, List.countP_cons]

/-- Helper: `get_end_stats` returns `none` exactly when the count of
complete episodes is zero. -/
theorem get_end_stats_eq_none_iff (info : List InfoEntry) :
    get_end_stats info = none ↔ n_complete_eps info = 0 := by
  by_cases h : n_complete_eps info = 0 <;> simp [get_end_stats, h]

/-- C7: `get_end_stats` hits its division-by-zero fault exactly when no
episode completed (every `oversight` entry is -1); with at least one
complete episode it returns a value. -/
theorem get_end_stats_div_by_zero (info : List InfoEntry) :
    (get_end_stats info = none ↔ ∀ e ∈ info, e.oversight = -1) ∧
    (0 < n_complete_eps info → (get_end_stats info).isSome = true) := by
  constructor
  · rw [get_end_stats_eq_none_iff]
    unfold n_complete_eps
    rw [List.countP_eq_zero]
    constructor
    · intro h e he
      have := h e he
      simpa using this
    · intro h e he
      simpa using h e he
  · intro hpos
    rcases hs : get_end_stats info with _ | s
    · rw [get_end_stats_eq_none_iff] at hs
      omega
    · rfl

/-- Witness for C7: one complete episode, so `get_end_stats` succeeds. -/
theorem get_end_stats_div_by_zero_witness :
    0 < n_complete_eps [⟨1, 1, 0, 0⟩] ∧
      (get_end_stats [⟨1, 1, 0, 0⟩]).isSome = true :=
  ⟨by decide, (get_end_stats_div_by_zero [⟨1, 1, 0, 0⟩]).2 (by decide)⟩

/-- Helper: the return scan keeps the number of steps. -/
theorem computeReturns_length (discount : ℚ) (l : List (ℚ × ℚ)) :
    (computeReturns discount l).length = l.length := by
  induction l with
  | nil => rfl
  | cons rd tl ih =>
    rcases h : computeReturns discount tl with _ | ⟨r1, rest⟩
    · rw [h] at ih
      simp [computeReturns, h, ← ih]
    · rw [h] at ih
      simp [computeReturns, h, ← ih]

/-- Helper: the step case of the return scan, written with `getD`. -/
theorem computeReturns_cons (discount : ℚ) (rd : ℚ × ℚ) (tl : List (ℚ × ℚ))
    (h : tl ≠ []) :
    computeReturns discount (rd :: tl) =
      (rd.1 + discount * (computeReturns discount tl).getD 0 0 * (1 - rd.2)) ::
        computeReturns discount tl := by
  rcases htl : computeReturns discount tl with _ | ⟨r1, rest⟩
  · have hlen := computeReturns_length discount tl
    rw [htl] at hlen
    exact absurd (List.eq_nil_of_length_eq_zero hlen.symm) h
  · simp [computeReturns, htl]

/-- Helper: the defining recurrence of the computed returns, indexwise. -/
theorem computeReturns_getD (discount : ℚ) (l : List (ℚ × ℚ)) (k : ℕ)
    (hk : k + 1 < l.length) :
    (computeReturns discount l).getD k 0 =
      (l.getD k (0, 0)).1 +
        discount * (computeReturns discount l).getD (k + 1) 0 *
          (1 - (l.getD k (0, 0)).2) := by
  induction l generalizing k with
  | nil => simp at hk
  | cons rd tl ih =>
    have htl : tl ≠ [] := by
      intro h
      subst h
      simp at hk
    rw [computeReturns_cons discount rd tl htl]
    cases k with
    | zero => simp
    | succ k =>
      have hk2 : k + 1 < tl.length := by
        simp at hk
        omega
      simp only [List.getD_cons_succ]
      exact ih k hk2

/-- Helper: the return at the last step index equals the raw reward
there. -/
theorem computeReturns_last (discount : ℚ) (l : List (ℚ × ℚ)) (h : l ≠ []) :
    (computeReturns discount l).getD (l.length - 1) 0 =
      (l.getD (l.length - 1) (0, 0)).1 := by
  induction l with
  | nil => exact absurd rfl h
  | cons rd tl ih =>
    rcases htl : tl with _ | ⟨rd2, tl2⟩
    · rfl
    · rw [← htl]
      have htl2 : tl ≠ [] := by simp [htl]
      rw [computeReturns_cons discount rd tl htl2]
      have hlen : (rd :: tl).length - 1 = (tl.length - 1) + 1 := by
        rw [htl]
        simp
      rw [hlen]
      simp only [List.getD_cons_succ]
      exact ih htl2

/-- C2: the computed returns satisfy
`returns[k] = reward[k] + discount * returns[k+1] * (1 - done[k])` at
every index touched by the reverse scan; wherever `done[k] = 1` the
return equals the raw reward (no bootstrapping past a done flag); and a
1-step episode with done flag 1 has `returns[0] = reward[0]`. -/
theorem generate_and_process_batch_returns (discount : ℚ)
    (l : List (ℚ × ℚ)) :
    (∀ k, k + 1 < l.length →
      (computeReturns discount l).getD k 0 =
        (l.getD k (0, 0)).1 +
          discount * (computeReturns discount l).getD (k + 1) 0 *
            (1 - (l.getD k (0, 0)).2)) ∧
    (∀ k, k < l.length → (l.getD k (0, 0)).2 = 1 →
      (computeReturns discount l).getD k 0 = (l.getD k (0, 0)).1) ∧
    (∀ r : ℚ, computeReturns discount [(r, 1)] = [r]) := by
  refine ⟨fun k hk => computeReturns_getD discount l k hk, ?_, ?_⟩
  · intro k hk hdone
    by_cases hk2 : k + 1 < l.length
    · rw [computeReturns_getD discount l k hk2, hdone]
      ring
    · have hne : l ≠ [] := by
        intro h
        subst h
        simp at hk
      have hlast : k = l.length - 1 := by omega
      rw [hlast]
      exact computeReturns_last discount l hne
  · intro r
    rfl

/-- Witness for C2: a 3-step rollout with a done flag at index 1, where
the return at index 1 equals the raw reward there. -/
theorem generate_and_process_batch_returns_witness :
    (computeReturns ((1 : ℚ) / 2) [((2 : ℚ), (0 : ℚ)), (3, 1), (5, 0)]).getD 1 0 =
      (([((2 : ℚ), (0 : ℚ)), (3, 1), (5, 0)]).getD 1 (0, 0)).1 :=
  (generate_and_process_batch_returns ((1 : ℚ) / 2)
      [((2 : ℚ), (0 : ℚ)), (3, 1), (5, 0)]).2.1 1 (by decide) (by norm_num)

/-- C10: the reverse scan never touches the final step index: the return
there stays equal to the raw reward regardless of the done flag, and the
scan stays within the rollout horizon (the returns list has exactly one
entry per step). -/
theorem returns_final_step_is_raw_reward (discount : ℚ)
    (l : List (ℚ × ℚ)) (h : l ≠ []) :
    (computeReturns discount l).length = l.length ∧
    (computeReturns discount l).getD (l.length - 1) 0 =
      (l.getD (l.length - 1) (0, 0)).1 :=
  ⟨computeReturns_length discount l, computeReturns_last discount l h⟩

/-- Witness for C10: a 2-step rollout whose last done flag is 1 and whose
last return equals the last raw reward. -/
theorem returns_final_step_is_raw_reward_witness :
    (computeReturns ((1 : ℚ) / 2) [((2 : ℚ), (0 : ℚ)), (7, 1)]).length =
        [((2 : ℚ), (0 : ℚ)), (7, 1)].length ∧
    (computeReturns ((1 : ℚ) / 2)
          [((2 : ℚ), (0 : ℚ)), (7, 1)]).getD
        ([((2 : ℚ), (0 : ℚ)), (7, 1)].length - 1) 0 =
      (([((2 : ℚ), (0 : ℚ)), (7, 1)]).getD
          ([((2 : ℚ), (0 : ℚ)), (7, 1)].length - 1) (0, 0)).1 :=
  returns_final_step_is_raw_reward ((1 : ℚ) / 2)
    [((2 : ℚ), (0 : ℚ)), (7, 1)] (by decide)

/-- C6: `train` aborts at entry if and only if the discount lies outside
[0, 1] or the key "device" is present in the environment configuration;
every other combination passes both precondition checks. -/
theorem train_aborts_iff (discount : ℚ) (env_kwargs_keys : List String)
    (save_dir : String) (run_id : String) :
    train_model discount env_kwargs_keys save_dir run_id = none ↔
      (discount < 0 ∨ 1 < discount ∨ "device" ∈ env_kwargs_keys) := by
  unfold train_model
  by_cases h1 : 0 ≤ discount ∧ discount ≤ 1
  · by_cases h2 : "device" ∈ env_kwargs_keys
    · simp [h1, h2]
    · simp [h1, h2]
  · simp [h1]
    rcases not_and_or.mp h1 with h | h
    · exact Or.inl (not_le.mp h)
    · exact Or.inr (Or.inl (not_le.mp h))

/-- Witness for C6: a discount greater than 1 makes `train` abort. -/
theorem train_aborts_iff_witness :
    train_model 2 [] "out" "7" = none :=
  (train_aborts_iff 2 [] "out" "7").mpr (Or.inr (Or.inl (by norm_num)))

/-- C8: every completed run of `train` persists the training CSV
`train_results_<run_id>.csv`, the evaluation CSV
`eval_results_<run_id>.csv` and the policy weights `policy_<run_id>.pt`,
all under `save_dir`. -/
theorem train_persists_outputs (discount : ℚ) (env_kwargs_keys : List String)
    (save_dir : String) (run_id : String) (files : List String)
    (h : train_model discount env_kwargs_keys save_dir run_id = some files) :
    ospath_join save_dir ("train_results_" ++ run_id ++ ".csv") ∈ files ∧
    ospath_join save_dir ("eval_results_" ++ run_id ++ ".csv") ∈ files ∧
    ospath_join save_dir ("policy_" ++ run_id ++ ".pt") ∈ files := by
  unfold train_model at h
  split at h
  · split at h
    · exact absurd h (by simp)
    · have hfiles : files = train_saved_paths save_dir run_id :=
        (Option.some_inj.mp h).symm
      subst hfiles
      refine ⟨?_, ?_, ?_⟩ <;> simp [train_saved_paths]
  · exact absurd h (by simp)

/-- Witness for C8: a run with discount 1/2 and no "device" key completes
and its persisted file list contains the three expected paths. -/
theorem train_persists_outputs_witness :
    ospath_join "out" ("train_results_" ++ "7" ++ ".csv") ∈
        train_saved_paths "out" "7" ∧
    ospath_join "out" ("eval_results_" ++ "7" ++ ".csv") ∈
        train_saved_paths "out" "7" ∧
    ospath_join "out" ("policy_" ++ "7" ++ ".pt") ∈
        train_saved_paths "out" "7" :=
  train_persists_outputs ((1 : ℚ) / 2) [] "out" "7"
    (train_saved_paths "out" "7") (by norm_num [train_model])
